import Mathlib

/-!
Shallow embedding of the `st7735-async` driver (repository file `src/lib.rs`),
an ST7735 SPI LCD driver with an in-memory framebuffer.

Modelling conventions:
* Rust `u8`/`u16`/`usize` values are `Nat`; overflow/wrapping is made explicit
  with `% 2^w` where the source arithmetic can wrap (release semantics).
* A framebuffer `[u8; N]` is a `List Nat` of length `N`.
* Fallible Rust code (slice indexing, which panics when out of bounds) is
  embedded in `Option`: `none` models a panic.
* The SPI wire is modelled as a list of events: an opcode transaction (sent
  with the data/command line low), a data transaction (line high), or a delay.
-/

namespace ST7735Async

/-- Display pixel color mode (`enum PixelColor`, `lib.rs` lines 20-25). -/
inductive PixelColor
  | RGB
  | BGR
deriving DecidableEq

/-- The `#[repr(u8)]` discriminant of `PixelColor` (`RGB = 0x00`, `BGR = 0x08`). -/
def PixelColor.toByte : PixelColor → Nat
  | .RGB => 0x00
  | .BGR => 0x08

/-- Display orientation (`enum Orientation`, `lib.rs` lines 62-67). -/
inductive Orientation
  | Portrait
  | Landscape
  | PortraitSwapped
  | LandscapeSwapped
deriving DecidableEq

/-- The `#[repr(u8)]` discriminant of `Orientation`. -/
def Orientation.toByte : Orientation → Nat
  | .Portrait => 0x00
  | .Landscape => 0x60
  | .PortraitSwapped => 0xC0
  | .LandscapeSwapped => 0xA0

/-- Display settings (`struct Config`, `lib.rs` lines 70-77). -/
structure Config where
  rgb : PixelColor
  inverted : Bool
  orientation : Orientation

/-- Modelled from the spec: the crate file `src/instruction.rs` (the `Instruction`
opcode enum referenced by `pub mod instruction`) is not among the sources, so the
ST7735 instruction set is represented symbolically by the constructor names used
throughout `lib.rs`; the claims compare opcodes by identity and never need the
numeric opcode bytes. -/
inductive Instruction
  | SWRESET
  | SLPOUT
  | FRMCTR1
  | FRMCTR2
  | FRMCTR3
  | INVCTR
  | PWCTR1
  | PWCTR2
  | PWCTR3
  | PWCTR4
  | PWCTR5
  | VMCTR1
  | INVON
  | INVOFF
  | MADCTL
  | COLMOD
  | DISPON
  | CASET
  | RASET
  | RAMWR
deriving DecidableEq

/-- `buffer_size` (`lib.rs` lines 13-15): `width as usize * height as usize * 2`.
The `u16` inputs are below `2^16`, so the `usize` product cannot wrap. -/
def buffer_size (width height : Nat) : Nat :=
  width * height * 2

/-- One transaction descriptor (`struct Command`, `lib.rs` lines 89-103):
instruction opcode, parameter bytes, post-transaction delay in ms. -/
structure Command where
  instruction : Instruction
  params : List Nat
  delay_time : Nat
deriving DecidableEq

/-- The modulus of Rust `usize` on the 64-bit targets of this crate. -/
def USIZE_SIZE : Nat := 2 ^ 64

/-- Wrapping `usize` decrement, modelling `self.buffer.len() - 1` in release
mode: for `n = 0` the subtraction wraps to `usize::MAX`. -/
def usizeSub1 (n : Nat) : Nat := (n + (USIZE_SIZE - 1)) % USIZE_SIZE

/-- Common tail of `ST7735::set_pixel` and `Frame::set_pixel`
(`lib.rs` lines 361-368 and 481-488): guard `idx >= buffer.len() - 1` (with the
wrapping subtraction), then `buffer[idx] = high; buffer[idx + 1] = low`.
The two indexing assignments panic (`none`) unless `idx + 1 < buffer.len()`;
when the guard let them through with a non-empty buffer they are in bounds. -/
def writePixelWord (b : List Nat) (idx high low : Nat) : Option (List Nat) :=
  if usizeSub1 b.length ≤ idx then some b
  else if idx + 1 < b.length then some ((b.set idx high).set (idx + 1) low)
  else none

namespace ST7735

/-- `ST7735::set_pixel` (`lib.rs` lines 344-369) as a framebuffer transformer.
`WIDTH`/`HEIGHT` are the `u16` const generics, `b` the `N`-byte buffer.
Landscape orientations: return early when `x >= WIDTH`, pixel index
`y * WIDTH + x`; Portrait orientations: return early when `y >= WIDTH`,
pixel index `y * HEIGHT + x`. Byte index is twice the pixel index; the color
is split as `low = color & 0xff`, `high = (color & 0xff00) >> 8`. -/
def set_pixel (WIDTH HEIGHT : Nat) (o : Orientation) (x y color : Nat)
    (b : List Nat) : Option (List Nat) :=
  match o with
  | .Landscape | .LandscapeSwapped =>
    if WIDTH ≤ x then some b
    else writePixelWord b ((y * WIDTH + x) * 2)
      ((color &&& 0xff00) >>> 8) (color &&& 0xff)
  | .Portrait | .PortraitSwapped =>
    if WIDTH ≤ y then some b
    else writePixelWord b ((y * HEIGHT + x) * 2)
      ((color &&& 0xff00) >>> 8) (color &&& 0xff)

/-- The buffer created by `ST7735::new` (`lib.rs` lines 304-310): `[0; N]`.
`new` performs no size validation; the associated const `CHECK_N` is marked
`#[allow(dead_code)]` and is referenced nowhere, so its assertion is never
evaluated. -/
def new_buffer (N : Nat) : List Nat := List.replicate N 0

/-- The proposition asserted by the associated const `ST7735::CHECK_N`
(`lib.rs` lines 299-302): `N == Self::BUFFER_SIZE` where
`BUFFER_SIZE = buffer_size(WIDTH, HEIGHT)`. -/
def CHECK_N (WIDTH HEIGHT N : Nat) : Prop := N = buffer_size WIDTH HEIGHT

end ST7735

namespace Frame

/-- `Frame::set_pixel` (`lib.rs` lines 463-489) as a framebuffer transformer,
with the color already converted to its raw 16-bit value
(`RawU16::from(color).into_inner()`). Landscape orientations: return early
when `x >= self.width`, index `y * width + x`; Portrait orientations: return
early when `y >= self.height`, index `y * height + x`. -/
def set_pixel (width height : Nat) (o : Orientation) (x y color : Nat)
    (b : List Nat) : Option (List Nat) :=
  match o with
  | .Landscape | .LandscapeSwapped =>
    if width ≤ x then some b
    else writePixelWord b ((y * width + x) * 2)
      ((color &&& 0xff00) >>> 8) (color &&& 0xff)
  | .Portrait | .PortraitSwapped =>
    if height ≤ y then some b
    else writePixelWord b ((y * height + x) * 2)
      ((color &&& 0xff00) >>> 8) (color &&& 0xff)

end Frame

/-- `DrawTarget::clear` for `ST7735` and `Frame` (`lib.rs` lines 413-423 and
518-528): for `i in 0..N`, `buffer[i]` becomes the high color byte at even `i`
and the low color byte at odd `i`. -/
def clear (color : Nat) (b : List Nat) : List Nat :=
  (List.range b.length).map fun i =>
    if i % 2 = 0 then (color &&& 0xff00) >>> 8 else color &&& 0xff

/-- One event on the SPI wire: an opcode byte transaction (data/command line
low), a data transaction (line high), or a blocking delay of `ms` milliseconds. -/
inductive WireEvent
  | cmd (i : Instruction)
  | data (bytes : List Nat)
  | wait (ms : Nat)
deriving DecidableEq

/-- `ST7735IF::write_command` (`lib.rs` lines 213-233): one opcode transaction
with the line low, then, only if `params` is non-empty, one parameter
transaction with the line high. -/
def write_command_events (i : Instruction) (params : List Nat) : List WireEvent :=
  WireEvent.cmd i :: if params.isEmpty then [] else [WireEvent.data params]

/-- Loop body of `ST7735IF::init` (`lib.rs` lines 166-188): opcode transaction,
parameter transaction when `params` is non-empty, then `delay_ms(delay_time)`
when `delay_time > 0`. -/
def command_events (c : Command) : List WireEvent :=
  write_command_events c.instruction c.params ++
    (if 0 < c.delay_time then [WireEvent.wait c.delay_time] else [])

/-- The command array built by `ST7735IF::init` (`lib.rs` lines 135-164). -/
def init_commands (cfg : Config) : List Command :=
  [⟨.SWRESET, [], 200⟩,
   ⟨.SLPOUT, [], 200⟩,
   ⟨.FRMCTR1, [0x01, 0x2C, 0x2D], 0⟩,
   ⟨.FRMCTR2, [0x01, 0x2C, 0x2D], 0⟩,
   ⟨.FRMCTR3, [0x01, 0x2C, 0x2D, 0x01, 0x2C, 0x2D], 0⟩,
   ⟨.INVCTR, [0x07], 0⟩,
   ⟨.PWCTR1, [0xA2, 0x02, 0x84], 0⟩,
   ⟨.PWCTR2, [0xC5], 0⟩,
   ⟨.PWCTR3, [0x0A, 0x00], 0⟩,
   ⟨.PWCTR4, [0x8A, 0x2A], 0⟩,
   ⟨.PWCTR5, [0x8A, 0xEE], 0⟩,
   ⟨.VMCTR1, [0x0E], 0⟩,
   ⟨if cfg.inverted then .INVON else .INVOFF, [], 0⟩,
   ⟨.MADCTL, [cfg.rgb.toByte], 0⟩,
   ⟨.COLMOD, [0x05], 0⟩,
   ⟨.DISPON, [], 200⟩]

/-- SPI wire trace of `ST7735IF::init` (`lib.rs` lines 126-192) after the
hard reset (which touches only the reset pin, never the SPI bus): the command
loop over `init_commands`, then `set_orientation(self.orientation)`
(`lib.rs` lines 205-211), which is `write_command(MADCTL,
[orientation as u8 | rgb as u8])`. -/
def init_events (cfg : Config) : List WireEvent :=
  (init_commands cfg).flatMap command_events ++
    write_command_events .MADCTL
      [Nat.lor cfg.orientation.toByte cfg.rgb.toByte]

/-- Wrapping `u16` addition, modelling `sx + self.dx` in release mode. -/
def u16add (a b : Nat) : Nat := (a + b) % 65536

/-- `u16::to_be_bytes`: big-endian byte pair of a `u16` value. -/
def to_be_bytes (v : Nat) : List Nat := [v / 256 % 256, v % 256]

/-- `ST7735IF::set_address_window` (`lib.rs` lines 255-274): CASET opcode, one
4-byte data transaction with the offset start/end columns big-endian, RASET
opcode, one 4-byte data transaction with the offset start/end rows. -/
def set_address_window_events (dx dy sx sy ex ey : Nat) : List WireEvent :=
  write_command_events .CASET [] ++
    [WireEvent.data (to_be_bytes (u16add sx dx) ++ to_be_bytes (u16add ex dx))] ++
    write_command_events .RASET [] ++
    [WireEvent.data (to_be_bytes (u16add sy dy) ++ to_be_bytes (u16add ey dy))]

/-- SPI wire trace of `ST7735::flush` (`lib.rs` lines 323-331):
`set_address_window(0, 0, WIDTH - 1, HEIGHT - 1)`, the RAMWR opcode, then the
entire buffer as one data transaction. -/
def flush_events (WIDTH HEIGHT dx dy : Nat) (buffer : List Nat) : List WireEvent :=
  set_address_window_events dx dy 0 0 (WIDTH - 1) (HEIGHT - 1) ++
    write_command_events .RAMWR [] ++
    [WireEvent.data buffer]

/-- `core::convert::Infallible`: an uninhabited error type. -/
inductive Infallible : Type

/-- `enum Error<E>` (`lib.rs` lines 438-444): a communication error wrapping
the transport error, or a pin error wrapping `Infallible`. -/
inductive Error (E : Type)
  | Comm (e : E)
  | Pin (p : Infallible)

/-- Specification-side in-bounds predicate: the declared per-orientation panel
bounds. Landscape orientations draw on a `WIDTH × HEIGHT` surface; Portrait
orientations on the rotated `HEIGHT × WIDTH` surface. -/
def inBounds (o : Orientation) (WIDTH HEIGHT x y : Nat) : Prop :=
  match o with
  | .Landscape | .LandscapeSwapped => x < WIDTH ∧ y < HEIGHT
  | .Portrait | .PortraitSwapped => x < HEIGHT ∧ y < WIDTH

/-- Specification-side pixel index computed by `ST7735::set_pixel` for an
accepted coordinate. -/
def pixelIndex (o : Orientation) (WIDTH HEIGHT x y : Nat) : Nat :=
  match o with
  | .Landscape | .LandscapeSwapped => y * WIDTH + x
  | .Portrait | .PortraitSwapped => y * HEIGHT + x

/-- Specification-side early-rejection predicate of `ST7735::set_pixel`:
the orientation-specific bound check against `WIDTH`. -/
def rejected (o : Orientation) (WIDTH x y : Nat) : Prop :=
  match o with
  | .Landscape | .LandscapeSwapped => WIDTH ≤ x
  | .Portrait | .PortraitSwapped => WIDTH ≤ y

instance (o : Orientation) (W H x y : Nat) : Decidable (inBounds o W H x y) :=
  match o with
  | .Landscape => inferInstanceAs (Decidable (x < W ∧ y < H))
  | .LandscapeSwapped => inferInstanceAs (Decidable (x < W ∧ y < H))
  | .Portrait => inferInstanceAs (Decidable (x < H ∧ y < W))
  | .PortraitSwapped => inferInstanceAs (Decidable (x < H ∧ y < W))

instance (o : Orientation) (W x y : Nat) : Decidable (rejected o W x y) :=
  match o with
  | .Landscape => inferInstanceAs (Decidable (W ≤ x))
  | .LandscapeSwapped => inferInstanceAs (Decidable (W ≤ x))
  | .Portrait => inferInstanceAs (Decidable (W ≤ y))
  | .PortraitSwapped => inferInstanceAs (Decidable (W ≤ y))

/-! Helper lemmas shared by the claim theorems. -/

lemma slot_bound {k A len : Nat} (hk : k < A) (hlen : len = A * 2) :
    k * 2 + 1 < len := by omega

lemma USIZE_SIZE_eq : USIZE_SIZE = 18446744073709551616 := by
  norm_num [USIZE_SIZE]

lemma usizeSub1_of_pos {n : Nat} (h1 : 1 ≤ n) (h2 : n < USIZE_SIZE) :
    usizeSub1 n = n - 1 := by
  have h := USIZE_SIZE_eq
  unfold usizeSub1
  rw [h] at h2 ⊢
  omega

lemma land_ff (c : Nat) : c &&& 0xff = c % 256 := by
  have h : (0xff : Nat) = 2 ^ 8 - 1 := by norm_num
  rw [h, Nat.and_pow_two_sub_one_eq_mod]

lemma land_ff00_shift (c : Nat) : (c &&& 0xff00) >>> 8 = c / 256 % 256 := by
  have h1 : (0xff00 : Nat) = 0xff <<< 8 := by decide
  have h2 : c / 256 % 256 = (c >>> 8) % 2 ^ 8 := by
    rw [Nat.shiftRight_eq_div_pow]
    norm_num
  apply Nat.eq_of_testBit_eq
  intro i
  rw [h1, h2, Nat.testBit_shiftRight, Nat.testBit_and, Nat.testBit_shiftLeft,
    Nat.testBit_mod_two_pow, Nat.testBit_shiftRight]
  have h3 : (0xff : Nat) = 2 ^ 8 - 1 := by norm_num
  rw [h3, Nat.testBit_two_pow_sub_one]
  have h4 : 8 + i - 8 = i := by omega
  simp [h4, Bool.and_comm]

lemma buffer_size_lt_usize {W H : Nat} (hW : W < 65536) (hH : H < 65536) :
    buffer_size W H < USIZE_SIZE := by
  have h : W * H * 2 ≤ 65535 * 65535 * 2 := by
    have := Nat.mul_le_mul (Nat.mul_le_mul (Nat.le_of_lt_succ hW)
      (Nat.le_of_lt_succ hH)) (Nat.le_refl 2)
    simpa using this
  calc buffer_size W H = W * H * 2 := rfl
    _ ≤ 65535 * 65535 * 2 := h
    _ < USIZE_SIZE := by rw [USIZE_SIZE_eq]; norm_num

lemma writePixelWord_write {b : List Nat} {idx : Nat} (high low : Nat)
    (h2 : idx + 1 < b.length) (h64 : b.length < USIZE_SIZE) :
    writePixelWord b idx high low = some ((b.set idx high).set (idx + 1) low) := by
  unfold writePixelWord
  rw [usizeSub1_of_pos (by omega) h64]
  rw [if_neg (by omega), if_pos h2]

lemma writePixelWord_spec {b : List Nat} {idx : Nat} (high low : Nat)
    (h2 : idx + 1 < b.length) (h64 : b.length < USIZE_SIZE) :
    ∃ b', writePixelWord b idx high low = some b' ∧
      b'[idx]? = some high ∧ b'[idx + 1]? = some low ∧
      ∀ j, j ≠ idx → j ≠ idx + 1 → b'[j]? = b[j]? := by
  refine ⟨(b.set idx high).set (idx + 1) low,
    writePixelWord_write high low h2 h64, ?_, ?_, ?_⟩
  · rw [List.getElem?_set_ne (by omega), List.getElem?_set_self (by omega)]
  · rw [List.getElem?_set_self (by simpa using h2)]
  · intro j hj1 hj2
    rw [List.getElem?_set_ne (by omega), List.getElem?_set_ne (by omega)]

/-! The claim theorems. -/

/-- C3: for every fixed `Config`, `init` emits a deterministic ordered trace:
the software reset (200 ms delay), sleep-out (200 ms delay), the three
frame-rate-control instructions, display inversion control, the five
power-control instructions, VCOM control, INVON when `inverted` else INVOFF,
memory-access-control whose parameter byte is the RGB/BGR flag, color-mode
select, display-on (200 ms delay) — delays are 200 ms exactly after reset,
sleep-out and display-on and absent elsewhere — concluding by issuing the
configured orientation ORed with the RGB/BGR flag. -/
theorem init_trace_matches_documented_sequence (cfg : Config) :
    init_events cfg =
      [WireEvent.cmd .SWRESET, .wait 200,
       .cmd .SLPOUT, .wait 200,
       .cmd .FRMCTR1, .data [0x01, 0x2C, 0x2D],
       .cmd .FRMCTR2, .data [0x01, 0x2C, 0x2D],
       .cmd .FRMCTR3, .data [0x01, 0x2C, 0x2D, 0x01, 0x2C, 0x2D],
       .cmd .INVCTR, .data [0x07],
       .cmd .PWCTR1, .data [0xA2, 0x02, 0x84],
       .cmd .PWCTR2, .data [0xC5],
       .cmd .PWCTR3, .data [0x0A, 0x00],
       .cmd .PWCTR4, .data [0x8A, 0x2A],
       .cmd .PWCTR5, .data [0x8A, 0xEE],
       .cmd .VMCTR1, .data [0x0E],
       .cmd (if cfg.inverted then .INVON else .INVOFF),
       .cmd .MADCTL, .data [cfg.rgb.toByte],
       .cmd .COLMOD, .data [0x05],
       .cmd .DISPON, .wait 200,
       .cmd .MADCTL, .data [Nat.lor cfg.orientation.toByte cfg.rgb.toByte]] :=
  rfl

/-- C4: for every buffer state, `flush` emits exactly the column-address-set
instruction with the full-panel column range (offset `dx` applied, big-endian
16-bit), the row-address-set instruction with the full-panel row range (offset
`dy` applied), the memory-write opcode, and one single data transaction whose
bytes are the entire framebuffer — and nothing else. -/
theorem flush_trace_exact (W H dx dy : Nat) (buf : List Nat)
    (hW : 0 < W) (hH : 0 < H) (hdx : dx < 65536) (hdy : dy < 65536) :
    flush_events W H dx dy buf =
      [WireEvent.cmd .CASET,
       .data [dx / 256 % 256, dx % 256,
              (W - 1 + dx) % 65536 / 256 % 256, (W - 1 + dx) % 256],
       .cmd .RASET,
       .data [dy / 256 % 256, dy % 256,
              (H - 1 + dy) % 65536 / 256 % 256, (H - 1 + dy) % 256],
       .cmd .RAMWR,
       .data buf] := by
  have e1 : dx % 65536 = dx := by omega
  have e2 : dy % 65536 = dy := by omega
  have e3 : (W - 1 + dx) % 65536 % 256 = (W - 1 + dx) % 256 :=
    Nat.mod_mod_of_dvd _ (by norm_num)
  have e4 : (H - 1 + dy) % 65536 % 256 = (H - 1 + dy) % 256 :=
    Nat.mod_mod_of_dvd _ (by norm_num)
  simp [flush_events, set_address_window_events, write_command_events,
    to_be_bytes, u16add, e1, e2, e3, e4]

/-- C4 witness: the flush trace theorem applied at a concrete panel, offset and
buffer. -/
theorem flush_trace_exact_witness :
    ((0 : Nat) < 160 ∧ (0 : Nat) < 128 ∧ (1 : Nat) < 65536 ∧ (2 : Nat) < 65536) ∧
    flush_events 160 128 1 2 [7, 9] =
      [WireEvent.cmd .CASET, .data [0, 1, 0, 160], .cmd .RASET,
       .data [0, 2, 0, 129], .cmd .RAMWR, .data [7, 9]] :=
  ⟨⟨by decide, by decide, by decide, by decide⟩, by
    have h := flush_trace_exact 160 128 1 2 [7, 9]
      (by decide) (by decide) (by decide) (by decide)
    simpa using h⟩

/-- C9: the code is wrong here — the static buffer-size assertion `CHECK_N` is
an associated const that is never referenced, so it is never evaluated and
constructing a driver with `N ≠ WIDTH * HEIGHT * 2` succeeds: `new` just
builds the zero buffer `[0; N]` with no size validation. At `WIDTH = 160`,
`HEIGHT = 128`, `N = 10` the invariant fails while construction produces a
10-byte buffer. -/
theorem check_n_never_enforced :
    ¬ ST7735.CHECK_N 160 128 10 ∧
    ST7735.new_buffer 10 = List.replicate 10 0 ∧
    (ST7735.new_buffer 10).length ≠ buffer_size 160 128 := by
  refine ⟨fun h => ?_, rfl, fun h => ?_⟩
  · simp only [ST7735.CHECK_N, buffer_size] at h
    omega
  · simp only [ST7735.new_buffer, List.length_replicate, buffer_size] at h
    omega

/-- C10: the `Pin` variant of `Error` wraps the uninhabited `Infallible` type,
so every value of the error enum is a `Comm` value: no operation can ever
return a `Pin` error, though the variant remains representable in the enum. -/
theorem error_pin_structurally_unreachable (E : Type) (e : Error E) :
    ∃ x : E, e = Error.Comm x := by
  cases e with
  | Comm x => exact ⟨x, rfl⟩
  | Pin p => cases p

/-- C1: for every supported orientation and every `(x, y)` within the declared
panel bounds for that orientation, `ST7735::set_pixel` succeeds (no panic) and
writes exactly two bytes at the computed byte offset — the high color byte then
the low color byte — and every other byte of the framebuffer is unchanged. -/
theorem set_pixel_in_bounds_writes_two_bytes (W H : Nat) (o : Orientation)
    (x y c : Nat) (b : List Nat) (hW : W < 65536) (hH : H < 65536)
    (hlen : b.length = buffer_size W H) (hxy : inBounds o W H x y) :
    ∃ b', ST7735.set_pixel W H o x y c b = some b' ∧
      b'[pixelIndex o W H x y * 2]? = some ((c &&& 0xff00) >>> 8) ∧
      b'[pixelIndex o W H x y * 2 + 1]? = some (c &&& 0xff) ∧
      ∀ j, j ≠ pixelIndex o W H x y * 2 → j ≠ pixelIndex o W H x y * 2 + 1 →
        b'[j]? = b[j]? := by
  have h64 : b.length < USIZE_SIZE := hlen ▸ buffer_size_lt_usize hW hH
  have hlen' : b.length = W * H * 2 := by simpa [buffer_size] using hlen
  cases o <;> simp only [pixelIndex, inBounds, ST7735.set_pixel] at hxy ⊢
  case Landscape | LandscapeSwapped =>
    obtain ⟨hx, hy⟩ := hxy
    have hA : y * W + x < W * H := by
      have h1 : (y + 1) * W ≤ H * W := Nat.mul_le_mul_right W hy
      have h2 : (y + 1) * W = y * W + W := by ring
      have h3 : H * W = W * H := Nat.mul_comm H W
      omega
    have hidx : (y * W + x) * 2 + 1 < b.length := slot_bound hA hlen'
    rw [if_neg (by omega)]
    exact writePixelWord_spec _ _ hidx h64
  case Portrait | PortraitSwapped =>
    obtain ⟨hx, hy⟩ := hxy
    have hA : y * H + x < W * H := by
      have h1 : (y + 1) * H ≤ W * H := Nat.mul_le_mul_right H hy
      have h2 : (y + 1) * H = y * H + H := by ring
      omega
    have hidx : (y * H + x) * 2 + 1 < b.length := slot_bound hA hlen'
    rw [if_neg (by omega)]
    exact writePixelWord_spec _ _ hidx h64

/-- C1 witness: the in-bounds write theorem applied at a concrete panel,
pixel and color. -/
theorem set_pixel_in_bounds_writes_two_bytes_witness :
    ((2 : Nat) < 65536 ∧ (2 : Nat) < 65536 ∧
      (List.replicate 8 (0 : Nat)).length = buffer_size 2 2 ∧
      inBounds .Landscape 2 2 1 1) ∧
    (∃ b', ST7735.set_pixel 2 2 .Landscape 1 1 0xABCD (List.replicate 8 0) =
        some b' ∧
      b'[pixelIndex .Landscape 2 2 1 1 * 2]? = some ((0xABCD &&& 0xff00) >>> 8) ∧
      b'[pixelIndex .Landscape 2 2 1 1 * 2 + 1]? = some (0xABCD &&& 0xff) ∧
      ∀ j, j ≠ pixelIndex .Landscape 2 2 1 1 * 2 →
        j ≠ pixelIndex .Landscape 2 2 1 1 * 2 + 1 →
        b'[j]? = (List.replicate 8 (0 : Nat))[j]?) :=
  ⟨⟨by decide, by decide, by decide, by decide⟩,
    set_pixel_in_bounds_writes_two_bytes 2 2 .Landscape 1 1 0xABCD
      (List.replicate 8 0) (by decide) (by decide) (by decide) (by decide)⟩

/-- C5: in Portrait and PortraitSwapped orientation, `ST7735::set_pixel` is a
no-op when `y ≥ WIDTH`, and otherwise targets pixel index `y * HEIGHT + x`
(byte index twice that), performing the guarded two-byte write there. -/
theorem set_pixel_portrait_policy (W H x y c : Nat) (b : List Nat)
    (o : Orientation) (ho : o = .Portrait ∨ o = .PortraitSwapped) :
    (W ≤ y → ST7735.set_pixel W H o x y c b = some b) ∧
    (y < W → ST7735.set_pixel W H o x y c b =
      writePixelWord b ((y * H + x) * 2) ((c &&& 0xff00) >>> 8) (c &&& 0xff)) := by
  rcases ho with rfl | rfl <;>
    refine ⟨fun h => ?_, fun h => ?_⟩ <;>
    first
      | (simp only [ST7735.set_pixel]; rw [if_pos h])
      | (simp only [ST7735.set_pixel]; rw [if_neg (by omega)])

/-- C5 witness: the Portrait policy theorem applied at a concrete input, with
both the rejection branch (vacuously) and the targeting branch exercised. -/
theorem set_pixel_portrait_policy_witness :
    (Orientation.Portrait = Orientation.Portrait ∨
      Orientation.Portrait = Orientation.PortraitSwapped) ∧
    ((3 ≤ 1 → ST7735.set_pixel 3 2 .Portrait 1 1 0xF800 [0, 0, 0, 0, 0, 0, 0, 0,
        0, 0, 0, 0] = some [0, 0, 0, 0, 0, 0, 0, 0, 0, 0, 0, 0]) ∧
     (1 < 3 → ST7735.set_pixel 3 2 .Portrait 1 1 0xF800 [0, 0, 0, 0, 0, 0, 0, 0,
        0, 0, 0, 0] =
      writePixelWord [0, 0, 0, 0, 0, 0, 0, 0, 0, 0, 0, 0] ((1 * 2 + 1) * 2)
        ((0xF800 &&& 0xff00) >>> 8) (0xF800 &&& 0xff))) :=
  ⟨Or.inl rfl,
    set_pixel_portrait_policy 3 2 1 1 0xF800 [0, 0, 0, 0, 0, 0, 0, 0, 0, 0, 0, 0]
      .Portrait (Or.inl rfl)⟩

/-- C6 counterexample: the claimed byte offset is miscalculated. The claim
asserts `set_pixel(159, 127, 0xF800)` writes at byte offset
`2 * (127 * 160 + 159) = 40718`, but `2 * (127 * 160 + 159) = 40958`: the code
writes `0xF8, 0x00` at offsets 40958 and 40959 (the last pixel of the buffer),
while the byte at offset 40718 stays `0`. -/
theorem set_pixel_example_offset_is_wrong :
    ST7735.set_pixel 160 128 .Landscape 159 127 0xF800 (List.replicate 40960 0) =
      some (((List.replicate 40960 0).set 40958 0xF8).set 40959 0x00) ∧
    (((List.replicate 40960 0).set 40958 0xF8).set 40959 0x00)[40718]? =
      some 0 ∧
    (127 * 160 + 159) * 2 ≠ 40718 := by
  refine ⟨?_, ?_, by norm_num⟩
  · simp only [ST7735.set_pixel]
    rw [if_neg (by omega)]
    have h2 : (127 * 160 + 159) * 2 + 1 <
        (List.replicate 40960 (0 : Nat)).length := by
      simp only [List.length_replicate]
      norm_num
    have h64 : (List.replicate 40960 (0 : Nat)).length < USIZE_SIZE := by
      simp only [List.length_replicate, USIZE_SIZE_eq]
      norm_num
    rw [writePixelWord_write _ _ h2 h64]
    have hb1 : ((0xF800 : Nat) &&& 0xff00) >>> 8 = 0xF8 := by decide
    have hb2 : (0xF800 : Nat) &&& 0xff = 0x00 := by decide
    have hi1 : (127 * 160 + 159) * 2 = 40958 := by norm_num
    rw [hb1, hb2, hi1]
  · rw [List.getElem?_set_ne (by norm_num), List.getElem?_set_ne (by norm_num),
      List.getElem?_replicate_of_lt (by norm_num)]

/-- C6 (amended): with `WIDTH = 160`, `HEIGHT = 128`, Landscape orientation:
`set_pixel(159, 127, 0xF800)` writes byte `0xF8` then byte `0x00` at buffer
byte offset `2 * (127 * 160 + 159) = 40958` and changes nothing else, and
`set_pixel(160, 0, c)` is a no-op for every color `c` because `x ≥ WIDTH`. -/
theorem set_pixel_example_landscape_160x128 :
    ST7735.set_pixel 160 128 .Landscape 159 127 0xF800 (List.replicate 40960 0) =
      some (((List.replicate 40960 0).set 40958 0xF8).set 40959 0x00) ∧
    (127 * 160 + 159) * 2 = 40958 ∧
    ∀ c : Nat, ST7735.set_pixel 160 128 .Landscape 160 0 c
        (List.replicate 40960 0) = some (List.replicate 40960 0) := by
  refine ⟨?_, by norm_num, fun c => rfl⟩
  simp only [ST7735.set_pixel]
  rw [if_neg (by omega)]
  have h2 : (127 * 160 + 159) * 2 + 1 < (List.replicate 40960 (0 : Nat)).length := by
    simp only [List.length_replicate]
    norm_num
  have h64 : (List.replicate 40960 (0 : Nat)).length < USIZE_SIZE := by
    simp only [List.length_replicate, USIZE_SIZE_eq]
    norm_num
  rw [writePixelWord_write _ _ h2 h64]
  have hb1 : ((0xF800 : Nat) &&& 0xff00) >>> 8 = 0xF8 := by decide
  have hb2 : (0xF800 : Nat) &&& 0xff = 0x00 := by decide
  have hi1 : (127 * 160 + 159) * 2 = 40958 := by norm_num
  rw [hb1, hb2, hi1]

/-- C7 counterexample: the claim that an out-of-range pixel write never panics
fails on a driver with an empty framebuffer. `ST7735::<_, _, _, 1, 0, 0>` even
satisfies the intended invariant `N = WIDTH * HEIGHT * 2 = 0`, yet
`set_pixel(0, 0, c)` passes the Landscape bound check (`x < WIDTH`), computes
byte index `0`, and the guard `idx >= buffer.len() - 1` wraps
(`0 - 1 = usize::MAX` in release; the subtraction itself panics in debug), so
the code reaches `buffer[0]` on a 0-length buffer and panics (`none`) instead
of silently dropping the write. -/
theorem set_pixel_out_of_bounds_panics_on_empty_buffer :
    ST7735.set_pixel 1 0 .Landscape 0 0 0 [] = none := by decide

/-- C7 (amended): provided the framebuffer is non-empty, for every `(x, y)` at
or beyond the orientation-specific bound — and more generally whenever the
computed byte index reaches `N - 1` or beyond — `set_pixel` returns the buffer
entirely unchanged and does not panic (and it has no error channel at all).
The length bound `b.length < 2^64` is the `usize` size bound of any Rust
array. -/
theorem set_pixel_out_of_bounds_noop (W H : Nat) (o : Orientation) (x y c : Nat)
    (b : List Nat) (hlen : 1 ≤ b.length) (h64 : b.length < USIZE_SIZE)
    (h : rejected o W x y ∨ b.length - 1 ≤ pixelIndex o W H x y * 2) :
    ST7735.set_pixel W H o x y c b = some b := by
  have hs := usizeSub1_of_pos hlen h64
  cases o <;> simp only [ST7735.set_pixel, rejected, pixelIndex] at h ⊢ <;>
  · split
    · rfl
    · rename_i hg
      have hidx := h.resolve_left hg
      unfold writePixelWord
      rw [hs, if_pos hidx]

/-- C7 witness: the amended no-op theorem applied at a concrete out-of-bounds
coordinate. -/
theorem set_pixel_out_of_bounds_noop_witness :
    (1 ≤ ([(5 : Nat), 6]).length ∧ ([(5 : Nat), 6]).length < USIZE_SIZE ∧
      (rejected .Landscape 2 7 0 ∨
        ([(5 : Nat), 6]).length - 1 ≤ pixelIndex .Landscape 2 2 7 0 * 2)) ∧
    ST7735.set_pixel 2 2 .Landscape 7 0 0xABCD [5, 6] = some [5, 6] :=
  ⟨⟨by decide, by decide, Or.inl (by decide)⟩,
    set_pixel_out_of_bounds_noop 2 2 .Landscape 7 0 0xABCD [5, 6]
      (by decide) (by decide) (Or.inl (by decide))⟩

/-- C2 counterexample: the standalone `Frame` and the attached-buffer driver do
not apply the same rejection policy. With `width = WIDTH = 2`,
`height = HEIGHT = 1`, Portrait orientation, pixel `(0, 1)`: the driver checks
`y >= WIDTH` (`1 < 2`, accepted) and writes at byte index
`2 * (1 * HEIGHT + 0) = 2`, while `Frame` checks `y >= height` (`1 >= 1`,
rejected) and leaves the buffer untouched. -/
theorem frame_driver_set_pixel_differ :
    ST7735.set_pixel 2 1 .Portrait 0 1 0xF800 [0, 0, 0, 0] ≠
      Frame.set_pixel 2 1 .Portrait 0 1 0xF800 [0, 0, 0, 0] := by decide

/-- C2 (amended): with the same `WIDTH`/`HEIGHT`, the standalone `Frame` and
the driver compute the same byte index in every orientation, and as buffer
transformers they coincide for Landscape and LandscapeSwapped on all inputs;
for Portrait and PortraitSwapped they coincide exactly when the two bound
checks agree (`y < WIDTH ↔ y < HEIGHT`, e.g. whenever `y` is below both
dimensions), the driver checking `y` against `WIDTH` where `Frame` checks it
against its height. -/
theorem frame_matches_driver_set_pixel (W H : Nat) (o : Orientation)
    (x y c : Nat) (b : List Nat)
    (h : (o = .Landscape ∨ o = .LandscapeSwapped) ∨ (W ≤ y ↔ H ≤ y)) :
    Frame.set_pixel W H o x y c b = ST7735.set_pixel W H o x y c b := by
  cases o with
  | Landscape => rfl
  | LandscapeSwapped => rfl
  | Portrait =>
    have hiff : W ≤ y ↔ H ≤ y := by
      rcases h with (h | h) | h
      · exact absurd h (by decide)
      · exact absurd h (by decide)
      · exact h
    simp only [Frame.set_pixel, ST7735.set_pixel]
    by_cases hy : H ≤ y
    · rw [if_pos hy, if_pos (hiff.mpr hy)]
    · rw [if_neg hy, if_neg fun hw => hy (hiff.mp hw)]
  | PortraitSwapped =>
    have hiff : W ≤ y ↔ H ≤ y := by
      rcases h with (h | h) | h
      · exact absurd h (by decide)
      · exact absurd h (by decide)
      · exact h
    simp only [Frame.set_pixel, ST7735.set_pixel]
    by_cases hy : H ≤ y
    · rw [if_pos hy, if_pos (hiff.mpr hy)]
    · rw [if_neg hy, if_neg fun hw => hy (hiff.mp hw)]

/-- C2 witness: the amended equivalence applied at a concrete Portrait input
where the two bound checks agree. -/
theorem frame_matches_driver_set_pixel_witness :
    ((Orientation.Portrait = Orientation.Landscape ∨
        Orientation.Portrait = Orientation.LandscapeSwapped) ∨
      (2 ≤ 0 ↔ 2 ≤ 0)) ∧
    Frame.set_pixel 2 2 .Portrait 1 0 0xABCD [1, 2, 3, 4, 5, 6, 7, 8] =
      ST7735.set_pixel 2 2 .Portrait 1 0 0xABCD [1, 2, 3, 4, 5, 6, 7, 8] :=
  ⟨Or.inr Iff.rfl,
    frame_matches_driver_set_pixel 2 2 .Portrait 1 0 0xABCD
      [1, 2, 3, 4, 5, 6, 7, 8] (Or.inr Iff.rfl)⟩

/-- C8: after `clear(c)`, every one of the `WIDTH * HEIGHT` two-byte pixel
slots of the framebuffer holds exactly the 16-bit color `c`: the high color
byte at the even index, the low color byte at the odd index, and the two bytes
recompose to `c`. -/
theorem clear_fills_every_slot (W H c k : Nat) (b : List Nat)
    (hlen : b.length = buffer_size W H) (hc : c < 65536) (hk : k < W * H) :
    (clear c b)[k * 2]? = some ((c &&& 0xff00) >>> 8) ∧
    (clear c b)[k * 2 + 1]? = some (c &&& 0xff) ∧
    256 * ((c &&& 0xff00) >>> 8) + (c &&& 0xff) = c := by
  have hlen' : b.length = W * H * 2 := by simpa [buffer_size] using hlen
  have h1 : k * 2 + 1 < b.length := slot_bound hk hlen'
  refine ⟨?_, ?_, ?_⟩
  · unfold clear
    rw [List.getElem?_map, List.getElem?_range (by omega)]
    have he : (k * 2) % 2 = 0 := by omega
    simp [he]
  · unfold clear
    rw [List.getElem?_map, List.getElem?_range (by omega)]
    have ho : (k * 2 + 1) % 2 = 1 := by omega
    simp [ho]
  · rw [land_ff, land_ff00_shift]
    omega

/-- C8 witness: the clear theorem applied at a concrete panel, color and
slot. -/
theorem clear_fills_every_slot_witness :
    (([(9 : Nat), 9, 9, 9]).length = buffer_size 1 2 ∧ (0xABCD : Nat) < 65536 ∧
      1 < 1 * 2) ∧
    ((clear 0xABCD [9, 9, 9, 9])[1 * 2]? = some ((0xABCD &&& 0xff00) >>> 8) ∧
     (clear 0xABCD [9, 9, 9, 9])[1 * 2 + 1]? = some (0xABCD &&& 0xff) ∧
     256 * ((0xABCD &&& 0xff00) >>> 8) + (0xABCD &&& 0xff) = 0xABCD) :=
  ⟨⟨by decide, by decide, by decide⟩,
    clear_fills_every_slot 1 2 0xABCD 1 [9, 9, 9, 9]
      (by decide) (by decide) (by decide)⟩

end ST7735Async
